import Mathlib

/-!
Verification of the digital-twin core (memory store with cosine-similarity
search, persona derivation from survey answers, prompt-assembling engine).

Modelling conventions:
* Python floats are idealised as real numbers (`ℝ`); vectors are `List ℝ`.
* A numpy expression that raises (`np.dot` on nonempty vectors of different
  lengths) is modelled by `Option`: `none` stands for a raised exception.
* Python dicts of survey answers are modelled as `String → Option PyValue`
  where `PyValue` is the closed set of value kinds the GUI produces
  (ints, strings, and `None`); `int(v)` is `pyInt`, `str(v)` is `pyStr`.
* The embedding provider (`GeminiClient.embed`) is a parameter
  `embedf : String → List ℝ`: the offline stub is a hash-seeded PRNG whose
  numeric values are irrelevant to every property proved here, only the
  fact that it is a function of the input string matters.
* The offline generation fallback (`GeminiClient.chat` with no SDK
  configured) is modelled exactly: a fixed template echoing a truncated
  prefix of the user message.
* Mutating methods are modelled as functions from the store (and persona)
  to the new store: the Python objects own their state exclusively.
-/

namespace DigitalTwin

/-- Memory record, from `models.py` `MemoryItem`.  The `timestamp` field is
omitted (wall-clock time, unused by every operation verified here); the
`meta` dict is an association list. -/
structure MemoryItem where
  type : String
  text : String
  embedding : List ℝ
  meta : List (String × String)
  permanent : Bool

/-- The five valid memory kinds, from `models.py` `VALID_MEMORY_TYPES`. -/
def VALID_MEMORY_TYPES : List String :=
  ["survey", "chat", "decision", "correction", "situation"]

/-- Persona, from `models.py` `Persona` (the `survey_json` audit copy is
omitted: no verified operation reads it back). -/
structure Persona where
  user_name : String
  persona_summary : String
  tone_style : String
  values : String
  humor : String
  decision_style : String
  mbti : String

/-- Default-constructed `Persona()` of `models.py`. -/
def Persona.init : Persona :=
  ⟨"You", "", "Balanced, friendly", "Pragmatic, honest", "Light, situational",
   "Evidence-driven with intuition", ""⟩

/-- Model of `MemoryBank.clear` (memory_bank.py lines 44-48): keep only the
`permanent` records, or drop everything.  The store is passed and returned
explicitly. -/
def clear (keep_permanent : Bool) (mems : List MemoryItem) : List MemoryItem :=
  if keep_permanent then mems.filter (fun m => m.permanent) else []

/-- Model of `MemoryBank.delete` (memory_bank.py lines 40-42): `pop(idx)` guarded by
`0 <= idx < len(self._memories)`; a Python int may be negative, hence
`idx : Int`. -/
def delete (idx : Int) (mems : List MemoryItem) : List MemoryItem :=
  if 0 ≤ idx ∧ idx < (mems.length : Int) then mems.eraseIdx idx.toNat else mems

/-- Sum of squares of a vector; `np.linalg.norm(a) ** 2`. -/
noncomputable def vecNormSq (a : List ℝ) : ℝ := (a.map (fun x => x * x)).sum

/-- Euclidean norm, `np.linalg.norm(a)`. -/
noncomputable def vecNorm (a : List ℝ) : ℝ := Real.sqrt (vecNormSq a)

/-- Dot product of two equal-length vectors, `np.dot(a, b)` (only applied
under an equal-length guard, where `zipWith` loses nothing). -/
noncomputable def dotList (a b : List ℝ) : ℝ := (List.zipWith (fun x y => x * y) a b).sum

open Classical in
/-- Model of `MemoryBank._cosine_similarity` (memory_bank.py lines 14-21).  The
guards follow the source order: empty operand, then zero denominator, and
only then is `np.dot` evaluated — which raises (`none`) when the two
nonempty vectors have different lengths. -/
noncomputable def cosine_similarity (a b : List ℝ) : Option ℝ :=
  if a.length = 0 ∨ b.length = 0 then some 0
  else if vecNorm a * vecNorm b = 0 then some 0
  else if a.length = b.length then some (dotList a b / (vecNorm a * vecNorm b))
  else none

/-- The record filter of `MemoryBank.search` (memory_bank.py line 33):
`if type_filter and m.type != type_filter: continue`.  Python truthiness
makes an empty-string filter behave like no filter at all. -/
def passesFilter (type_filter : Option String) (m : MemoryItem) : Bool :=
  match type_filter with
  | Option.none => true
  | some t => if t = "" then true else m.type == t

/-- The scoring loop of `MemoryBank.search` (lines 32-36): one similarity
per record, a raise anywhere aborting the whole call. -/
noncomputable def scoreAll (q : List ℝ) : List MemoryItem → Option (List (ℝ × MemoryItem))
  | [] => some []
  | m :: rest =>
    match cosine_similarity q m.embedding, scoreAll q rest with
    | some s, some tail => some ((s, m) :: tail)
    | _, _ => Option.none

open Classical in
/-- Comparison used by `scored.sort(key=lambda x: x[0], reverse=True)`:
Python's stable sort in descending key order lets `x` precede `y` exactly
when `y`'s key is at most `x`'s. -/
noncomputable def scoreLE (x y : ℝ × MemoryItem) : Bool := decide (y.1 ≤ x.1)

/-- Model of `MemoryBank.search` (memory_bank.py lines 29-38): filter, score,
stable-sort descending, truncate to `top_k`, strip the scores.  `none`
models the `np.dot` exception propagating to the caller. -/
noncomputable def search (mems : List MemoryItem) (q : List ℝ) (top_k : Nat)
    (type_filter : Option String) : Option (List MemoryItem) :=
  match scoreAll q (mems.filter (passesFilter type_filter)) with
  | some scored => some (((scored.mergeSort scoreLE).take top_k).map (fun x => x.2))
  | Option.none => Option.none

/-- Similarity of a record to the query, with `0` for the (never reached
under the success hypothesis) raising case. -/
noncomputable def simScore (q : List ℝ) (m : MemoryItem) : ℝ :=
  (cosine_similarity q m.embedding).getD 0

open Classical in
/-- Record-level descending-similarity comparison. -/
noncomputable def simLE (q : List ℝ) (m1 m2 : MemoryItem) : Bool :=
  decide (simScore q m2 ≤ simScore q m1)

/-- The ranking the spec describes, written independently of the sort the
code performs: pair every record passing the filter with its insertion
index, sort by the strict lexicographic order "greater similarity first,
equal similarity by smaller insertion index first" (`List.enumLE`), strip
the indices and keep the first `top_k`. -/
noncomputable def searchSpec (mems : List MemoryItem) (q : List ℝ) (top_k : Nat)
    (type_filter : Option String) : List MemoryItem :=
  ((((mems.filter (passesFilter type_filter)).enum).mergeSort
    (List.enumLE (simLE q))).map (fun x => x.2)).take top_k

/-- Survey answer values: the closed set of kinds the GUI hands to
`process_survey` — Likert ints, free-text strings, and Python `None`. -/
inductive PyValue where
  | int (n : Int)
  | str (s : String)
  | pyNone

/-- A survey answers dict: total lookup, `none` for a missing key. -/
abbrev Answers : Type := String → Option PyValue

/-- Python `str.strip()`, as a character-list computation (the built-in
`String.trim` is equivalent but not kernel-reducible). -/
def pyStrip (s : String) : String :=
  ⟨(((s.data.dropWhile Char.isWhitespace).reverse).dropWhile Char.isWhitespace).reverse⟩

/-- Value of a nonempty all-digit character run; `none` otherwise. -/
def digitsVal (ds : List Char) : Option Nat :=
  if ds = [] then Option.none
  else if ds.all Char.isDigit then
    some (ds.foldl (fun acc c => acc * 10 + (c.toNat - Char.toNat '0')) 0)
  else Option.none

/-- Python `int(string)`: an optionally signed digit run after stripping
whitespace; anything else raises (digit-group underscores are not
modelled). -/
def pyStrToInt (s : String) : Option Int :=
  match (pyStrip s).data with
  | '-' :: ds => (digitsVal ds).map (fun n => -(n : Int))
  | '+' :: ds => (digitsVal ds).map (fun n => (n : Int))
  | ds => (digitsVal ds).map (fun n => (n : Int))

/-- Python `int(v)`: succeeds on an int, or on a string that is an optionally
signed integer numeral after stripping whitespace; raises (`none`) on any
other string and on `None`. -/
def pyInt : PyValue → Option Int
  | PyValue.int n => some n
  | PyValue.str s => pyStrToInt s
  | PyValue.pyNone => Option.none

/-- Python `str(v)` for the modelled value kinds (`str(None) = "None"`). -/
def pyStr : PyValue → String
  | PyValue.int n => toString n
  | PyValue.str s => s
  | PyValue.pyNone => "None"

/-- The `geti` closure of `_derive_persona_fields` (twin_core.py lines
37-42): `int(answers.get(key))` with every failure — missing key, `None`,
non-numeric value — defaulting to the neutral midpoint `3`. -/
def geti (answers : Answers) (key : String) : Int :=
  match (answers key).bind pyInt with
  | some n => n
  | Option.none => 3

/-- Descending comparison on `(axis, score)` pairs: the key function
`lambda x: x[1]` with `reverse=True`, stable. -/
def valueLE (x y : String × Int) : Bool := decide (y.2 ≤ x.2)

/-- Model of `_top_values` (twin_core.py lines 10-11): axes sorted by score
descending (stable), truncated to `n`, scores stripped. -/
def _top_values (values : List (String × Int)) (n : Nat) : List String :=
  ((values.mergeSort valueLE).take n).map (fun x => x.1)

/-- The `values_map` dict literal of `_derive_persona_fields` (twin_core.py
lines 60-66), in declaration order. -/
def values_map (answers : Answers) : List (String × Int) :=
  [("honesty", geti answers "val_honesty"),
   ("efficiency", geti answers "val_efficiency"),
   ("loyalty", geti answers "val_loyalty"),
   ("creativity", geti answers "val_creativity"),
   ("frugality", geti answers "val_frugality")]

/-- Model of `_derive_mbti` (twin_core.py lines 14-25): four independent 1-5 Likert
axes, `>= 4` picking the high letter, `<= 2` the low letter and the
midrange the placeholder `X`. -/
def _derive_mbti (answers : Answers) : String :=
  let ei := geti answers "mbti_ei"
  let sn := geti answers "mbti_sn"
  let tf := geti answers "mbti_tf"
  let jp := geti answers "mbti_jp"
  let e := if ei ≥ 4 then "E" else if ei ≤ 2 then "I" else "X"
  let n := if sn ≥ 4 then "N" else if sn ≤ 2 then "S" else "X"
  let f := if tf ≥ 4 then "F" else if tf ≤ 2 then "T" else "X"
  let p := if jp ≥ 4 then "P" else if jp ≤ 2 then "J" else "X"
  e ++ n ++ f ++ p

/-- Model of `_top_values_sentence` (twin_core.py lines 28-33): fallback for an
empty list, the single value alone, otherwise a comma list with `" and "`
before the final item. -/
def _top_values_sentence (vals : List String) : String :=
  match vals with
  | [] => "pragmatism"
  | [v] => v
  | v :: rest =>
    String.intercalate ", " (List.dropLast (v :: rest)) ++ " and " ++
      (v :: rest).getLast (by simp)

/-- The full record returned by `_derive_persona_fields`. -/
structure PersonaFields where
  tone : String
  values : String
  humor : String
  decision_style : String
  persona_summary : String
  mbti : String

/-- Model of `_derive_persona_fields` (twin_core.py lines 36-115), a pure total
function of the answers. -/
def _derive_persona_fields (answers : Answers) : PersonaFields :=
  let directness := geti answers "tone_directness"
  let formality := geti answers "tone_formality"
  let empathy := geti answers "tone_empathy"
  let msg_len := geti answers "msg_length"
  let humor_style :=
    let raw := pyStrip (pyStr ((answers "humor_style").getD (PyValue.str "light")))
    if raw = "" then "light" else raw
  let humor_freq := geti answers "humor_frequency"
  let data_vs_intuition := geti answers "decision_data_vs_intuition"
  let risk := geti answers "risk_tolerance"
  let speed := geti answers "speed_vs_thoroughness"
  let agree := geti answers "agreeableness"
  let consc := geti answers "conscientiousness"
  let open_ := geti answers "openness"
  let extra := geti answers "extraversion"
  let top_vals := _top_values (values_map answers) 3
  let tone_bits :=
    [if directness ≥ 4 then "direct" else if directness ≤ 2 then "diplomatic" else "balanced",
     if formality ≥ 4 then "formal" else if formality ≤ 2 then "casual" else "semi-formal"]
    ++ (if empathy ≥ 4 then ["empathetic"] else [])
    ++ (if msg_len ≥ 4 then ["detailed"]
        else if msg_len ≤ 2 then ["concise"] else [])
  let tone_style := String.intercalate ", " tone_bits.eraseDups
  let humor_phrase :=
    if humor_freq ≥ 4 then "often " ++ humor_style
    else if humor_freq ≤ 2 then "rarely " ++ humor_style
    else humor_style
  let decision_base :=
    if data_vs_intuition ≥ 4 ∧ risk ≤ 2 then "data-first, risk-averse"
    else if data_vs_intuition ≥ 4 ∧ risk ≥ 4 then "data-first, calculated risk-taker"
    else if data_vs_intuition ≤ 2 ∧ risk ≥ 4 then "intuition-led, comfortable with risk"
    else if data_vs_intuition ≤ 2 ∧ risk ≤ 2 then "intuition-led, cautious"
    else "balances data and intuition"
  let decision_style := decision_base ++
    (if speed ≥ 4 then ", prefers speed"
     else if speed ≤ 2 then ", prefers thoroughness" else "")
  let persona_summary :=
    "Tone is " ++ tone_style ++ ". Values center on " ++
    _top_values_sentence top_vals ++ ". " ++
    "Humor is " ++ humor_phrase ++ ". Decision-making is " ++ decision_style ++ ". " ++
    "Traits: agreeableness " ++ toString agree ++ "/5, conscientiousness " ++
    toString consc ++ "/5, openness " ++ toString open_ ++ "/5, extraversion " ++
    toString extra ++ "/5."
  ⟨tone_style, String.intercalate ", " top_vals, humor_phrase, decision_style,
   persona_summary, _derive_mbti answers⟩

/-- Python `s.split(":", 1)[-1]`: everything after the first colon (the
whole string when there is none). -/
def split_first_colon_rest (s : String) : String :=
  match s.splitOn ":" with
  | [] => s
  | [x] => x
  | _ :: rest => String.intercalate ":" rest

/-- Model of `DigitalAITwin._catchphrases` (twin_core.py lines 156-161). -/
def _catchphrases (mems : List MemoryItem) : List String :=
  (mems.filter (fun m =>
    m.type == "survey" && m.text.toLower.startsWith "catchphrase:")).map
    (fun m => pyStrip (split_first_colon_rest m.text))

/-- Model of `GeminiClient.chat` with no provider configured (gemini_client.py lines
100-103): the deterministic offline stub, ignoring the system prompt and
echoing the first 160 characters of the user message. -/
def gemini_chat (system_prompt user_message : String) : String :=
  "[Stubbed Gemini Reply] Based on your persona and memories, " ++
  "here\x27s a likely response: " ++ user_message.take 160 ++ " ..."

/-- Model of `DigitalAITwin.chat` (twin_core.py lines 164-191): embed and store the
user message, retrieve context across all kinds, assemble the system
prompt, generate, store and return the reply. -/
noncomputable def chat (embedf : String → List ℝ) (p : Persona)
    (mems : List MemoryItem) (message : String) (k : Nat) :
    Option (String × List MemoryItem) :=
  let q_emb := embedf message
  let mems1 := mems ++ [⟨"chat", message, q_emb, [("role", "user")], false⟩]
  match search mems1 q_emb k Option.none with
  | Option.none => Option.none
  | some context_items =>
    let context_lines := context_items.map (fun m => "- " ++ m.type.toUpper ++ ": " ++ m.text)
    let catchphrases := _catchphrases mems1
    let style_rules :=
      "Respond in first person as " ++ p.user_name ++ ". Keep the tone " ++
      p.tone_style ++ ". " ++
      "Be concise (1–3 sentences) unless detail was requested. " ++
      "Avoid asking questions unless critical. Prefer decisive language." ++
      (if catchphrases = [] then ""
       else " Optionally weave in these catchphrase(s) naturally: " ++
         String.intercalate ", " (catchphrases.take 2) ++ ".")
    let system_prompt :=
      "You are the AI twin of " ++ p.user_name ++ ".\n" ++
      "Persona: " ++ p.persona_summary ++ "\n" ++
      "Core Values: " ++ p.values ++ "\n" ++
      "Humor: " ++ p.humor ++ "\n" ++
      "Relevant Memories:\n" ++ String.intercalate "\n" (context_lines.take 5) ++
      "\n\n" ++ "Output style rules:\n" ++ style_rules
    let reply := gemini_chat system_prompt message
    let a_emb := embedf reply
    some (reply, mems1 ++ [⟨"chat", reply, a_emb, [("role", "assistant")], false⟩])

/-- The style-rules string of `simulate_decision` (twin_core.py lines
209-214). -/
def decision_style_rules (p : Persona) (catchphrases : List String) : String :=
  "Respond in first person as " ++ p.user_name ++
  ". State the decision clearly in the first sentence, " ++
  "then give 1–2 sentences of reasoning. No follow-up questions. " ++
  "Honor stated preferences if applicable." ++
  (if catchphrases = [] then ""
   else " Optionally include catchphrase(s) tastefully: " ++
     String.intercalate ", " (catchphrases.take 2) ++ ".")

/-- The system-prompt assembly of `simulate_decision` (twin_core.py lines
216-224): each of the three context blocks is a conditional fragment that
contributes the empty string — header included — when its line list is
empty. -/
def assemble_decision_prompt (p : Persona) (dlines slines plines : List String)
    (style_rules : String) : String :=
  "You are the AI twin of " ++ p.user_name ++ ".\n" ++
  "Persona Summary: " ++ p.persona_summary ++ "\n" ++
  "Decision-Making Style: " ++ p.decision_style ++ "\n" ++
  (if dlines = [] then ""
   else "Relevant Past Decisions:\n" ++ String.intercalate "\n" (dlines.take 5) ++ "\n") ++
  (if slines = [] then ""
   else "Survey Context:\n" ++ String.intercalate "\n" (slines.take 3) ++ "\n") ++
  (if plines = [] then ""
   else "Past Preferences from Chats (user statements):\n" ++
     String.intercalate "\n" plines ++ "\n") ++
  "Output style rules:\n" ++ style_rules

/-- The three retrievals of `simulate_decision` (twin_core.py lines
195-206): up to `k` decisions, up to 2 survey records, up to `max 5 k`
chats filtered to non-assistant roles and capped at 5 for the prompt. -/
noncomputable def simulate_retrieval (embedf : String → List ℝ)
    (mems : List MemoryItem) (situation : String) (k : Nat) :
    Option (List String × List String × List String) :=
  let q_emb := embedf situation
  match search mems q_emb k (some "decision"), search mems q_emb 2 (some "survey"),
      search mems q_emb (max 5 k) (some "chat") with
  | some relevant_decisions, some survey_ctx, some relevant_chats =>
    let user_prefs := relevant_chats.filter
      (fun m => !(m.meta.lookup "role" == some "assistant"))
    some (relevant_decisions.map (fun m => "- " ++ m.text),
      survey_ctx.map (fun m => "- " ++ m.text),
      (user_prefs.take 5).map (fun m => "- " ++ m.text))
  | _, _, _ => Option.none

/-- The system prompt `simulate_decision` sends to the provider. -/
noncomputable def simulate_decision_prompt (embedf : String → List ℝ) (p : Persona)
    (mems : List MemoryItem) (situation : String) (k : Nat) : Option String :=
  match simulate_retrieval embedf mems situation k with
  | some (dlines, slines, plines) =>
    some (assemble_decision_prompt p dlines slines plines
      (decision_style_rules p (_catchphrases mems)))
  | Option.none => Option.none

/-- Model of `DigitalAITwin.simulate_decision` (twin_core.py lines 194-230): build
the prompt, generate, and append the reply as a `decision` record only
when `store` is true.  The situation text itself is never stored. -/
noncomputable def simulate_decision (embedf : String → List ℝ) (p : Persona)
    (mems : List MemoryItem) (situation : String) (k : Nat) (store : Bool) :
    Option (String × List MemoryItem) :=
  match simulate_decision_prompt embedf p mems situation k with
  | some prompt =>
    let reply := gemini_chat prompt situation
    some (reply,
      if store then mems ++ [⟨"decision", reply, embedf reply, [], false⟩] else mems)
  | Option.none => Option.none

/-- Model of `DigitalAITwin.process_survey` (twin_core.py lines 128-154): replace
the persona fields wholesale, then append the catchphrase record, the
example-decision records and the summary record, each embedded
individually. -/
def process_survey (embedf : String → List ℝ) (p : Persona)
    (mems : List MemoryItem) (answers : Answers) : Persona × List MemoryItem :=
  let derived := _derive_persona_fields answers
  let p2 : Persona :=
    ⟨p.user_name, derived.persona_summary, derived.tone, derived.values,
     derived.humor, derived.decision_style, derived.mbti⟩
  let catchphrase := pyStrip (pyStr ((answers "catchphrase").getD (PyValue.str "")))
  let mems1 :=
    if catchphrase = "" then mems
    else mems ++ [⟨"survey", "Catchphrase: " ++ catchphrase, embedf catchphrase, [], false⟩]
  let addExample := fun (ms : List MemoryItem) (key : String) =>
    let txt := pyStrip (pyStr ((answers key).getD (PyValue.str "")))
    if txt = "" then ms else ms ++ [⟨"decision", txt, embedf txt, [], false⟩]
  let mems2 :=
    (["example_decision1", "example_decision2", "example_decision3"]).foldl addExample mems1
  let text_summary :=
    "Tone: " ++ p2.tone_style ++ ". Values: " ++ p2.values ++ ". " ++
    "Decision Style: " ++ p2.decision_style ++ ". Humor: " ++ p2.humor ++
    ". MBTI: " ++ p2.mbti ++ "."
  (p2, mems2 ++ [⟨"survey", text_summary, embedf text_summary, [], false⟩])

/-- The example survey of the spec scenario verified as C7. -/
def c7_answers : Answers := fun key =>
  if key = "tone_directness" then some (PyValue.int 5)
  else if key = "tone_formality" then some (PyValue.int 1)
  else if key = "val_honesty" then some (PyValue.int 5)
  else if key = "val_creativity" then some (PyValue.int 4)
  else if key = "val_efficiency" then some (PyValue.int 3)
  else if key = "mbti_ei" then some (PyValue.int 5)
  else if key = "mbti_sn" then some (PyValue.int 3)
  else if key = "catchphrase" then some (PyValue.str "Ship it.")
  else Option.none

/-! ## Theorems -/

theorem vecNormSq_nonneg (a : List ℝ) : 0 ≤ vecNormSq a := by
  induction a with
  | nil => simp [vecNormSq]
  | cons x t ih =>
    simp only [vecNormSq, List.map_cons, List.sum_cons] at ih ⊢
    nlinarith [mul_self_nonneg x]

theorem dotList_comm (a b : List ℝ) : dotList a b = dotList b a :=
  congrArg List.sum (List.zipWith_comm_of_comm _ (fun x y => mul_comm x y) a b)

theorem dotList_sq_le : ∀ a b : List ℝ, dotList a b ^ 2 ≤ vecNormSq a * vecNormSq b
  | [], b => by simp [dotList, vecNormSq]
  | _ :: _, [] => by simp [dotList, vecNormSq]
  | x :: xs, y :: ys => by
    have ih := dotList_sq_le xs ys
    have hP := vecNormSq_nonneg xs
    have hQ := vecNormSq_nonneg ys
    simp only [dotList, vecNormSq, List.zipWith_cons_cons, List.map_cons,
      List.sum_cons] at ih hP hQ ⊢
    set S := (List.zipWith (fun x y => x * y) xs ys).sum with hS
    set P := (xs.map (fun x => x * x)).sum with hPdef
    set Q := (ys.map (fun x => x * x)).sum with hQdef
    rcases eq_or_lt_of_le hP with hP0 | hP0
    · have hS0 : S = 0 := by nlinarith [sq_nonneg S]
      rw [hS0, ← hP0]
      nlinarith [mul_nonneg (mul_self_nonneg x) hQ, sq_nonneg (x * y)]
    · have key : 0 ≤ P * ((x * x + P) * (y * y + Q) - (x * y + S) ^ 2) := by
        nlinarith [sq_nonneg (x * S - y * P), mul_nonneg (sq_nonneg x) (sub_nonneg.mpr ih),
          mul_nonneg hP (sub_nonneg.mpr ih)]
      nlinarith [key, hP0]

theorem cosine_similarity_comm (a b : List ℝ) :
    cosine_similarity a b = cosine_similarity b a := by
  unfold cosine_similarity
  by_cases h1 : a.length = 0 ∨ b.length = 0
  · rw [if_pos h1, if_pos (Or.symm h1)]
  · rw [if_neg h1, if_neg (fun h => h1 (Or.symm h))]
    by_cases h2 : vecNorm a * vecNorm b = 0
    · rw [if_pos h2, if_pos (show vecNorm b * vecNorm a = 0 by rwa [mul_comm])]
    · rw [if_neg h2, if_neg (show ¬vecNorm b * vecNorm a = 0 by rwa [mul_comm])]
      by_cases h3 : a.length = b.length
      · rw [if_pos h3, if_pos h3.symm, dotList_comm, mul_comm (vecNorm a)]
      · rw [if_neg h3, if_neg (show ¬b.length = a.length from fun h => h3 h.symm)]

/-- C3 (amended): the cosine similarity of `memory_bank.py` is symmetric
for every pair of vectors (raising on both orders of a mismatched pair);
whenever the computation returns a value, that value lies in `[-1, 1]`;
and when either vector is empty or has zero norm the result is exactly
`0.0`, returned without raising and without dividing by zero.  (The
original claim asserted a bounded value for every pair; `np.dot` raises on
nonempty vectors of different lengths, see the counterexample.) -/
theorem C3_cosine_similarity_props (a b : List ℝ) :
    cosine_similarity a b = cosine_similarity b a ∧
    (∀ x : ℝ, cosine_similarity a b = some x → -1 ≤ x ∧ x ≤ 1) ∧
    ((a = [] ∨ vecNorm a = 0 ∨ b = [] ∨ vecNorm b = 0) →
      cosine_similarity a b = some 0) := by
  refine ⟨cosine_similarity_comm a b, ?_, ?_⟩
  · intro x hx
    unfold cosine_similarity at hx
    split_ifs at hx with h1 h2 h3
    · injection hx with h
      rw [← h]; norm_num
    · injection hx with h
      rw [← h]; norm_num
    · have hna := Real.sqrt_nonneg (vecNormSq a)
      have hnb := Real.sqrt_nonneg (vecNormSq b)
      have hpos : 0 < vecNorm a * vecNorm b :=
        lt_of_le_of_ne (mul_nonneg hna hnb) (Ne.symm h2)
      have hsq : dotList a b ^ 2 ≤ (vecNorm a * vecNorm b) ^ 2 := by
        have ha2 : vecNorm a ^ 2 = vecNormSq a :=
          Real.sq_sqrt (vecNormSq_nonneg a)
        have hb2 : vecNorm b ^ 2 = vecNormSq b :=
          Real.sq_sqrt (vecNormSq_nonneg b)
        calc dotList a b ^ 2 ≤ vecNormSq a * vecNormSq b := dotList_sq_le a b
          _ = (vecNorm a * vecNorm b) ^ 2 := by rw [mul_pow, ha2, hb2]
      injection hx with h
      rw [← h]
      constructor
      · rw [le_div_iff₀ hpos]
        nlinarith [hsq, hpos]
      · rw [div_le_one hpos]
        nlinarith [hsq, hpos]
  · rintro (h | h | h | h)
    · unfold cosine_similarity
      rw [if_pos (Or.inl (by simp [h]))]
    · unfold cosine_similarity
      by_cases hl : a.length = 0 ∨ b.length = 0
      · rw [if_pos hl]
      · rw [if_neg hl, if_pos (by rw [h, zero_mul])]
    · unfold cosine_similarity
      rw [if_pos (Or.inr (by simp [h]))]
    · unfold cosine_similarity
      by_cases hl : a.length = 0 ∨ b.length = 0
      · rw [if_pos hl]
      · rw [if_neg hl, if_pos (by rw [h, mul_zero])]

/-- Shared evaluation fact: the similarity computation raises on the
nonempty, nonzero-norm, length-mismatched pair `[1]`, `[1, 1]`. -/
theorem cosine_mismatch_raises : cosine_similarity [1] [1, 1] = Option.none := by
  have hnorm : vecNorm [(1 : ℝ)] * vecNorm [(1 : ℝ), 1] ≠ 0 := by
    have h1 : vecNormSq [(1 : ℝ)] = 1 := by norm_num [vecNormSq]
    have h2 : vecNormSq [(1 : ℝ), 1] = 2 := by norm_num [vecNormSq]
    rw [vecNorm, vecNorm, h1, h2]
    positivity
  unfold cosine_similarity
  rw [if_neg (by norm_num), if_neg hnorm, if_neg (by norm_num)]

/-- C3 counterexample: on the nonempty vectors `[1]` and `[1, 1]` — both of
nonzero norm, of different lengths — the similarity computation raises
(`np.dot` shape mismatch, modelled as `none`), so it is not a value bounded
in `[-1, 1]` for every pair of vectors. -/
theorem C3_cosine_counterexample :
    cosine_similarity [1] [1, 1] = Option.none :=
  cosine_mismatch_raises

theorem C8_clear_keep_permanent (mems : List MemoryItem) :
    clear true mems = mems.filter (fun m => m.permanent) ∧
    (clear true mems).Sublist mems ∧
    (clear true mems).all (fun m => m.permanent) = true ∧
    clear false mems = [] := by
  refine ⟨rfl, ?_, ?_, rfl⟩
  · simp only [clear, if_pos]
    exact List.filter_sublist mems
  · simp [clear, List.all_eq_true]

theorem C9_delete_out_of_range (idx : Int) (mems : List MemoryItem) :
    delete idx mems =
      (if 0 ≤ idx ∧ idx < (mems.length : Int) then
        mems.take idx.toNat ++ mems.drop (idx.toNat + 1)
      else mems) ∧
    ((idx < 0 ∨ (mems.length : Int) ≤ idx) → delete idx mems = mems) := by
  constructor
  · unfold delete
    split
    · exact List.eraseIdx_eq_take_drop_succ mems idx.toNat
    · rfl
  · intro h
    unfold delete
    rw [if_neg]
    rintro ⟨h0, hlt⟩
    rcases h with h | h <;> omega

theorem scoreAll_eq_map (q : List ℝ) :
    ∀ l : List MemoryItem, (∀ m ∈ l, (cosine_similarity q m.embedding).isSome) →
      scoreAll q l = some (l.map (fun m => (simScore q m, m)))
  | [], _ => rfl
  | m :: rest, h => by
    obtain ⟨s, hs⟩ := Option.isSome_iff_exists.mp (h m (List.mem_cons_self m rest))
    have ht := scoreAll_eq_map q rest (fun x hx => h x (List.mem_cons_of_mem m hx))
    simp [scoreAll, hs, ht, simScore]

/-- C1 (amended): whenever the cosine computation succeeds on every record
passing the filter (equal lengths with the query, or an empty or zero-norm
side — otherwise `np.dot` raises, see the counterexample), `search`
returns exactly the records passing the filter ranked by descending
similarity with exact ties kept in insertion order (`searchSpec`), hence at
most `top_k` records; and whenever `kind_filter` is a non-empty string
every returned record has that kind (Python truthiness makes an
empty-string filter behave as unset, see the counterexample). -/
theorem C1_search_ranking (mems : List MemoryItem) (q : List ℝ) (k : Nat)
    (tf : Option String)
    (hok : ∀ m ∈ mems.filter (passesFilter tf), (cosine_similarity q m.embedding).isSome) :
    search mems q k tf = some (searchSpec mems q k tf) ∧
    (searchSpec mems q k tf).length ≤ k ∧
    (∀ t, tf = some t → t ≠ "" →
      ∀ m ∈ searchSpec mems q k tf, m.type = t) := by
  refine ⟨?_, ?_, ?_⟩
  · have h1 := scoreAll_eq_map q (mems.filter (passesFilter tf)) hok
    have hl : ∀ a ∈ mems.filter (passesFilter tf), ∀ b ∈ mems.filter (passesFilter tf),
        simLE q a b = scoreLE ((fun m => (simScore q m, m)) a) ((fun m => (simScore q m, m)) b) :=
      fun _ _ _ _ => rfl
    unfold search searchSpec
    rw [h1]
    dsimp only
    rw [← List.map_mergeSort hl, List.mergeSort_enum, ← List.map_take, List.map_map]
    exact congrArg some (List.map_id'' (fun x => rfl) _)
  · exact List.length_take_le _ _
  · intro t htf hne m hm
    unfold searchSpec at hm
    obtain ⟨p, hp, rfl⟩ := List.mem_map.mp (List.mem_of_mem_take hm)
    rw [List.mem_mergeSort] at hp
    have hmem : p.2 ∈ mems.filter (passesFilter tf) := by
      have h2 := List.mem_map_of_mem Prod.snd hp
      rwa [List.enum_map_snd] at h2
    have hpass := (List.mem_filter.mp hmem).2
    rw [htf] at hpass
    simp only [passesFilter, if_neg hne] at hpass
    exact eq_of_beq hpass

/-- C1 counterexample: (i) with the store holding one chat record embedded
as `[1, 1]` and the query `[1]`, `search` raises (`np.dot` shape mismatch)
instead of returning a ranked list; (ii) with `kind_filter` set to the
empty string, `search` returns a record whose kind, `"chat"`, is not that
filter — Python truthiness disables the filter entirely. -/
theorem C1_search_counterexample :
    search [⟨"chat", "hi", [1, 1], [], false⟩] [1] 5 Option.none = Option.none ∧
    search [⟨"chat", "hi", [], [], false⟩] [] 5 (some "") =
      some [⟨"chat", "hi", [], [], false⟩] ∧
    "chat" ≠ "" := by
  refine ⟨?_, ?_, by decide⟩
  · unfold search
    simp [passesFilter, scoreAll, cosine_mismatch_raises]
  · unfold search
    simp [passesFilter, scoreAll, cosine_similarity]

/-- Witness for the amended C1 at a concrete input: a one-record store of
kind `decision`, empty embeddings (cosine defined, equal to `0`), filter
`decision`. -/
theorem C1_search_ranking_witness :
    (∀ m ∈ ([⟨"decision", "lease", [], [], false⟩] : List MemoryItem).filter
        (passesFilter (some "decision")), (cosine_similarity [] m.embedding).isSome) ∧
    (search [⟨"decision", "lease", [], [], false⟩] [] 5 (some "decision") =
      some (searchSpec [⟨"decision", "lease", [], [], false⟩] [] 5 (some "decision")) ∧
    (searchSpec [⟨"decision", "lease", [], [], false⟩] [] 5 (some "decision")).length ≤ 5 ∧
    (∀ t, (some "decision" : Option String) = some t → t ≠ "" →
      ∀ m ∈ searchSpec [⟨"decision", "lease", [], [], false⟩] [] 5 (some "decision"),
        m.type = t)) := by
  have hok : ∀ m ∈ ([⟨"decision", "lease", [], [], false⟩] : List MemoryItem).filter
      (passesFilter (some "decision")), (cosine_similarity [] m.embedding).isSome := by
    intro m hm
    simp [passesFilter] at hm
    subst hm
    simp [cosine_similarity]
  exact ⟨hok, C1_search_ranking _ _ _ _ hok⟩

/-- C2: persona derivation never fails: `int(answers.get(key))` failing —
the key missing, the value `None`, or a non-numeric value — yields the
neutral midpoint `3`; and for every answers mapping the derivation is a
total function producing every persona field, with a four-letter type code
each of whose axis letters is the high letter, the low letter or the
neutral placeholder `X`. -/
theorem C2_derive_never_fails (f : Answers) (key : String) :
    ((f key).bind pyInt = Option.none → geti f key = 3) ∧
    (_derive_persona_fields f).mbti = _derive_mbti f ∧
    (∃ e n t j, _derive_mbti f = e ++ n ++ t ++ j ∧
      e ∈ ["E", "I", "X"] ∧ n ∈ ["N", "S", "X"] ∧
      t ∈ ["F", "T", "X"] ∧ j ∈ ["P", "J", "X"]) ∧
    (_derive_mbti f).length = 4 := by
  refine ⟨?_, rfl, ?_, ?_⟩
  · intro h
    unfold geti
    rw [h]
  · unfold _derive_mbti
    refine ⟨_, _, _, _, rfl, ?_, ?_, ?_, ?_⟩ <;> (split_ifs <;> simp)
  · simp only [_derive_mbti]
    split_ifs <;> rfl

/-- C6: the derived values list is exactly the five axes ranked by score
descending with ties kept in declaration order (the `enumLE` lexicographic
ranking over the declaration-indexed axes), truncated to 3; the `values`
persona field joins that list with `", "`; the sentence rendering places
`" and "` before the final item of a multi-item list; and the empty list
falls back to the single value `"pragmatism"`. -/
theorem C6_top_values_ranking (f : Answers) :
    _top_values (values_map f) 3 =
      (((((values_map f).enum).mergeSort (List.enumLE valueLE)).map
        (fun x => x.2)).take 3).map (fun x => x.1) ∧
    (_derive_persona_fields f).values =
      String.intercalate ", " (_top_values (values_map f) 3) ∧
    (∀ a b c : String,
      _top_values_sentence [a, b, c] = a ++ ", " ++ b ++ " and " ++ c) ∧
    _top_values_sentence [] = "pragmatism" := by
  refine ⟨?_, rfl, ?_, rfl⟩
  · unfold _top_values
    rw [List.mergeSort_enum]
  · intro a b c
    show String.intercalate ", " [a, b] ++ " and " ++ c =
      a ++ ", " ++ b ++ " and " ++ c
    have h : String.intercalate ", " [a, b] = (a ++ ", ") ++ b := rfl
    rw [h]

/-- C7: on the example survey `{tone_directness: 5, tone_formality: 1,
val_honesty: 5, val_creativity: 4, val_efficiency: 3, mbti_ei: 5,
mbti_sn: 3, catchphrase: "Ship it."}`, processing the survey yields a tone
phrase containing "direct" and "casual", a top-values list led by
"honesty", a type code starting with `E` whose third letter is the neutral
placeholder `X`, and a `survey` memory record with text
"Catchphrase: Ship it.". -/
theorem C7_survey_scenario (embedf : String → List ℝ) (p : Persona) :
    List.IsInfix "direct".toList
      (process_survey embedf p [] c7_answers).1.tone_style.toList ∧
    List.IsInfix "casual".toList
      (process_survey embedf p [] c7_answers).1.tone_style.toList ∧
    (_top_values (values_map c7_answers) 3).head? = some "honesty" ∧
    (process_survey embedf p [] c7_answers).1.mbti.toList.head? = some 'E' ∧
    (process_survey embedf p [] c7_answers).1.mbti.toList.get? 2 = some 'X' ∧
    ((process_survey embedf p [] c7_answers).2.map (fun m => (m.type, m.text))).contains
      ("survey", "Catchphrase: Ship it.") = true := by
  have htone : (process_survey embedf p [] c7_answers).1.tone_style = "direct, casual" := rfl
  have hmbti : (process_survey embedf p [] c7_answers).1.mbti = "EXXX" := rfl
  refine ⟨?_, ?_, ?_, ?_, ?_, ?_⟩
  · rw [htone]; decide
  · rw [htone]; decide
  · have h5 : values_map c7_answers =
        [("honesty", 5), ("efficiency", 3), ("loyalty", 3), ("creativity", 4),
         ("frugality", 3)] := by decide
    rw [_top_values, h5]
    simp [List.mergeSort, valueLE]
  · rw [hmbti]; decide
  · rw [hmbti]; decide
  · have hship : pyStrip "Ship it." = "Ship it." := by decide
    have hempty : pyStrip "" = "" := by decide
    simp [process_survey, c7_answers, pyStr, hship, hempty]

/-- Shared evaluation fact: the cosine of any vector against itself is
defined (equal lengths, so `np.dot` cannot raise). -/
theorem cosine_self_some (v : List ℝ) : ∃ s, cosine_similarity v v = some s := by
  unfold cosine_similarity
  split_ifs with h1 h2 h3
  · exact ⟨0, rfl⟩
  · exact ⟨0, rfl⟩
  · exact ⟨_, rfl⟩
  · exact absurd rfl h3

/-- C4: `chat` on an empty store with no provider configured returns the
fixed offline-stub template — the deterministic fallback echoing the first
160 characters of the message — and afterwards the store holds exactly two
new records, in order: a `chat` record tagged `role=user` holding the
message, then a `chat` record tagged `role=assistant` holding the reply.
No error reaches the caller (the result is `some`). -/
theorem C4_chat_offline_stub (embedf : String → List ℝ) (p : Persona)
    (message : String) (k : Nat) :
    chat embedf p [] message k =
      some (gemini_chat "" message,
        [⟨"chat", message, embedf message, [("role", "user")], false⟩,
         ⟨"chat", gemini_chat "" message, embedf (gemini_chat "" message),
          [("role", "assistant")], false⟩]) ∧
    gemini_chat "" message =
      "[Stubbed Gemini Reply] Based on your persona and memories, " ++
      "here\x27s a likely response: " ++ message.take 160 ++ " ..." := by
  refine ⟨?_, rfl⟩
  obtain ⟨s, hs⟩ := cosine_self_some (embedf message)
  unfold chat search
  simp [passesFilter, scoreAll, hs, gemini_chat]

/-- C5: each context block of `simulate_decision` vanishes entirely —
header included — when its retrieved set is empty (first three conjuncts:
the assembled prompt with an empty decisions, survey, or chat-preferences
list equals the assembly written without that block); and with zero stored
`decision` records the assembled prompt is exactly an assembly whose
decisions block is absent (last conjunct). -/
theorem C5_empty_blocks_omitted (embedf : String → List ℝ) (p : Persona)
    (mems : List MemoryItem) (situation : String) (k : Nat)
    (hnod : ∀ m ∈ mems, m.type ≠ "decision")
    (hok : ∀ m ∈ mems, (cosine_similarity (embedf situation) m.embedding).isSome) :
    (∀ s pr r, assemble_decision_prompt p [] s pr r =
      "You are the AI twin of " ++ p.user_name ++ ".\n" ++
      "Persona Summary: " ++ p.persona_summary ++ "\n" ++
      "Decision-Making Style: " ++ p.decision_style ++ "\n" ++
      (if s = [] then ""
       else "Survey Context:\n" ++ String.intercalate "\n" (s.take 3) ++ "\n") ++
      (if pr = [] then ""
       else "Past Preferences from Chats (user statements):\n" ++
         String.intercalate "\n" pr ++ "\n") ++
      "Output style rules:\n" ++ r) ∧
    (∀ d pr r, assemble_decision_prompt p d [] pr r =
      "You are the AI twin of " ++ p.user_name ++ ".\n" ++
      "Persona Summary: " ++ p.persona_summary ++ "\n" ++
      "Decision-Making Style: " ++ p.decision_style ++ "\n" ++
      (if d = [] then ""
       else "Relevant Past Decisions:\n" ++ String.intercalate "\n" (d.take 5) ++ "\n") ++
      (if pr = [] then ""
       else "Past Preferences from Chats (user statements):\n" ++
         String.intercalate "\n" pr ++ "\n") ++
      "Output style rules:\n" ++ r) ∧
    (∀ d s r, assemble_decision_prompt p d s [] r =
      "You are the AI twin of " ++ p.user_name ++ ".\n" ++
      "Persona Summary: " ++ p.persona_summary ++ "\n" ++
      "Decision-Making Style: " ++ p.decision_style ++ "\n" ++
      (if d = [] then ""
       else "Relevant Past Decisions:\n" ++ String.intercalate "\n" (d.take 5) ++ "\n") ++
      (if s = [] then ""
       else "Survey Context:\n" ++ String.intercalate "\n" (s.take 3) ++ "\n") ++
      "Output style rules:\n" ++ r) ∧
    (∃ slines plines, simulate_decision_prompt embedf p mems situation k =
      some (assemble_decision_prompt p [] slines plines
        (decision_style_rules p (_catchphrases mems)))) := by
  refine ⟨?_, ?_, ?_, ?_⟩
  · intro s pr r
    simp [assemble_decision_prompt]
  · intro d pr r
    simp [assemble_decision_prompt]
  · intro d s r
    simp [assemble_decision_prompt]
  have hq : ∀ tf : Option String,
      scoreAll (embedf situation) (mems.filter (passesFilter tf)) =
        some ((mems.filter (passesFilter tf)).map
          (fun m => (simScore (embedf situation) m, m))) :=
    fun tf => scoreAll_eq_map (embedf situation) _
      (fun m hm => hok m (List.mem_filter.mp hm).1)
  have hdec : mems.filter (passesFilter (some "decision")) = [] := by
    rw [List.filter_eq_nil_iff]
    intro m hm
    simp [passesFilter, hnod m hm]
  have hsd : search mems (embedf situation) k (some "decision") = some [] := by
    unfold search
    rw [hdec]
    simp [scoreAll]
  obtain ⟨Y, hY⟩ : ∃ Y, search mems (embedf situation) 2 (some "survey") = some Y := by
    unfold search
    rw [hq (some "survey")]
    exact ⟨_, rfl⟩
  obtain ⟨Z, hZ⟩ : ∃ Z, search mems (embedf situation) (max 5 k) (some "chat") = some Z := by
    unfold search
    rw [hq (some "chat")]
    exact ⟨_, rfl⟩
  unfold simulate_decision_prompt simulate_retrieval
  dsimp only
  rw [hsd, hY, hZ]
  exact ⟨_, _, rfl⟩

/-- Witness for C5 at a concrete input: the empty store (no `decision`
records, every cosine trivially defined), default persona. -/
theorem C5_empty_blocks_omitted_witness :
    (∀ m ∈ ([] : List MemoryItem), m.type ≠ "decision") ∧
    (∀ m ∈ ([] : List MemoryItem),
      (cosine_similarity ((fun _ => []) "sit") m.embedding).isSome) ∧
    (∃ slines plines,
      simulate_decision_prompt (fun _ => []) Persona.init [] "sit" 5 =
        some (assemble_decision_prompt Persona.init [] slines plines
          (decision_style_rules Persona.init (_catchphrases [])))) := by
  refine ⟨by simp, by simp, ?_⟩
  exact (C5_empty_blocks_omitted (fun _ => []) Persona.init [] "sit" 5
    (by simp) (by simp)).2.2.2

/-- C10: `simulate_decision` with `store=False` leaves the memory store
completely unchanged — in particular, unlike `chat`, the incoming
situation text is never stored — and with `store=True` the only change is
the generated reply appended as a single `decision` record. -/
theorem C10_simulate_decision_frame (embedf : String → List ℝ) (p : Persona)
    (mems : List MemoryItem) (situation : String) (k : Nat) :
    (∀ reply mems2,
      simulate_decision embedf p mems situation k false = some (reply, mems2) →
        mems2 = mems) ∧
    (∀ reply mems2,
      simulate_decision embedf p mems situation k true = some (reply, mems2) →
        mems2 = mems ++ [⟨"decision", reply, embedf reply, [], false⟩]) := by
  constructor
  · intro reply mems2 h
    unfold simulate_decision at h
    cases hp : simulate_decision_prompt embedf p mems situation k with
    | none => rw [hp] at h; simp at h
    | some prompt =>
      rw [hp] at h
      simp only [if_neg Bool.false_ne_true, Option.some.injEq, Prod.mk.injEq] at h
      exact h.2.symm
  · intro reply mems2 h
    unfold simulate_decision at h
    cases hp : simulate_decision_prompt embedf p mems situation k with
    | none => rw [hp] at h; simp at h
    | some prompt =>
      rw [hp] at h
      simp only [if_pos, Option.some.injEq, Prod.mk.injEq] at h
      obtain ⟨h1, h2⟩ := h
      rw [← h2, ← h1]

/-- Witness for C10 at a concrete input: the empty store and the constant
empty embedding; `store=False` indeed returns the untouched empty store. -/
theorem C10_simulate_decision_frame_witness :
    ∃ reply, simulate_decision (fun _ => []) Persona.init [] "sit" 5 false =
      some (reply, []) ∧ ([] : List MemoryItem) = [] := by
  obtain ⟨P, hp⟩ :
      ∃ P, simulate_decision_prompt (fun _ => []) Persona.init [] "sit" 5 = some P := by
    unfold simulate_decision_prompt simulate_retrieval search
    simp [scoreAll]
  have hsd : simulate_decision (fun _ => []) Persona.init [] "sit" 5 false =
      some (gemini_chat P "sit", []) := by
    unfold simulate_decision
    rw [hp]
    rfl
  exact ⟨gemini_chat P "sit", hsd,
    (C10_simulate_decision_frame (fun _ => []) Persona.init [] "sit" 5).1 _ _ hsd⟩

end DigitalTwin
